import Mathlib

/-!
Shallow embedding of the reservation platform (repository `reservas`,
files `api/utils.py` and `api/views.py`) and verification of its
specification claims.

Conventions of the embedding:
* Timestamps are integers (`Int`); Python datetimes are totally ordered
  and only compared with `<` / `>` in the modelled code, so any linear
  order is faithful.
* Django querysets over the database are modelled as lists of rows held
  in a `DB` record; `filter` / `exclude` / `exists` / `get` become
  `List.filter` / `List.any` / `List.find?`.
* `Resource.quantity` and usage quantities are `Int` (Python integers);
  the data-model invariants (total ≥ 0, usage quantity ≥ 1) appear as
  hypotheses where a claim needs them.
* The model classes themselves (`api/models.py`) are not part of the
  provided sources; where a claim depends on model methods
  (`can_cancel`, `cancel_by_user`) the definition is modelled from the
  spec and marked as such in its doc string.  Status and decision
  constants are abstracted into inductive types.
-/

/-- Reservation status, source constants `Reservation.PENDING` /
`APPROVED` / `REJECTED` / `CANCELLED`. -/
inductive Status where
  | PENDING
  | APPROVED
  | REJECTED
  | CANCELLED
deriving DecidableEq, Repr

/-- Approval decision, source strings "APPR" / "REJ". -/
inductive Decision where
  | APPR
  | REJ
deriving DecidableEq, Repr

/-- A user row: we only track the primary key and the `is_staff` flag. -/
structure UserRec where
  id : Nat
  isStaff : Bool
deriving DecidableEq, Repr

/-- A `Resource` row: identifier, name, total stock
(`resource.quantity`), active flag. -/
structure Resource where
  id : Nat
  name : String
  quantity : Int
  isActive : Bool
deriving DecidableEq, Repr

/-- A `Reservation` row.  `stop` embeds the source field `end` (a Lean
keyword).  Fields not used by any claim (purpose, attendee count) are
omitted. -/
structure Reservation where
  id : Nat
  userId : Nat
  spaceId : Nat
  start : Int
  stop : Int
  status : Status
  cancelReason : List Char
deriving DecidableEq, Repr

/-- A `ReservationResource` row (spec name `ReservationResourceUsage`):
(reservation, resource, quantity). -/
structure ReservationResource where
  reservationId : Nat
  resourceId : Nat
  quantity : Int
deriving DecidableEq, Repr

/-- An `Approval` row (at most one per reservation via
`update_or_create`). -/
structure Approval where
  reservationId : Nat
  approverId : Nat
  decision : Decision
  notes : String
deriving DecidableEq, Repr

/-- A `Notification` row. -/
structure Notification where
  userId : Nat
  message : String
deriving DecidableEq, Repr

/-- The database: one list per table.  `profiles` is the list of user
ids owning a `Profile` row; `cleaningGroup` is the resolved member list
of the group named by `settings.CLEANING_GROUP_NAME` (used by
`notify_cleaning_staff`). -/
structure DB where
  users : List UserRec
  profiles : List Nat
  resources : List Resource
  reservations : List Reservation
  usages : List ReservationResource
  approvals : List Approval
  notifications : List Notification
  cleaningGroup : List Nat
deriving Repr

/-- The half-open interval overlap primitive used throughout the code
(`start__lt=end_dt, end__gt=start_dt` in `api/utils.py` lines 50-53 and
`api/views.py` lines 510-512): `[startA, endA)` meets `[startB, endB)`
iff `startA < endB` and `startB < endA`. -/
def overlaps (startA endA startB endB : Int) : Bool :=
  decide (startA < endB) && decide (startB < endA)

/-- Status filter `status__in=[Reservation.PENDING, Reservation.APPROVED]`. -/
def isActiveStatus (s : Status) : Bool :=
  decide (s = Status.PENDING) || decide (s = Status.APPROVED)

/-- `check_resource_availability` from `api/utils.py` lines 38-70:
total stock minus the summed usage of `resource` over reservations with
status PENDING/APPROVED whose interval overlaps `[start_dt, end_dt)`,
optionally excluding one reservation id, clamped at 0.
The `exclude_reservation_id` guard in the source is Python truthiness
(`if exclude_reservation_id:`), so `some 0` behaves like `none`. -/
def check_resource_availability (db : DB) (resource : Resource)
    (start_dt end_dt : Int) (exclude_reservation_id : Option Nat) : Int :=
  let total := resource.quantity
  let ovl := db.reservations.filter fun r =>
    isActiveStatus r.status && overlaps r.start r.stop start_dt end_dt
  let ovl := match exclude_reservation_id with
    | none => ovl
    | some i => if i = 0 then ovl else ovl.filter fun r => decide (r.id ≠ i)
  let usage_qs := db.usages.filter fun u =>
    decide (u.resourceId = resource.id) && ovl.any fun r => decide (r.id = u.reservationId)
  let used_count := usage_qs.foldl (fun acc u => acc + u.quantity) 0
  max 0 (total - used_count)

/-- Spec-side sum for claim C1: the summed `quantity` of all usage rows
referencing `resource` whose owning reservation is PENDING/APPROVED,
overlaps `[s, e)` and is not the excluded one.  Written from the spec
sentence, to be compared with `check_resource_availability`. -/
def specUsageSum (db : DB) (resource : Resource)
    (s e : Int) (excl : Option Nat) : Int :=
  (db.usages.filter fun u =>
      decide (u.resourceId = resource.id) &&
      db.reservations.any fun r =>
        decide (r.id = u.reservationId) && isActiveStatus r.status &&
        overlaps r.start r.stop s e &&
        match excl with
        | none => true
        | some i => decide (r.id ≠ i)).foldl (fun acc u => acc + u.quantity) 0

-- ## Approval decision flow (`api/views.py` lines 488-554) ---------------

/-- The approval-time space conflict query inlined in `approve_or_reject`
(`api/views.py` lines 506-512): does some reservation on the same space
with status APPROVED, other than `reservation` itself, overlap its
interval? -/
def approvalConflict (db : DB) (reservation : Reservation) : Bool :=
  db.reservations.any fun r =>
    decide (r.spaceId = reservation.spaceId) &&
    decide (r.status = Status.APPROVED) &&
    decide (r.id ≠ reservation.id) &&
    overlaps r.start r.stop reservation.start reservation.stop

/-- `Approval.objects.update_or_create(reservation=.., defaults=..)`
(`api/views.py` lines 520-523): replace the approval row of this
reservation if one exists, otherwise insert a new one. -/
def update_or_create_approval (l : List Approval) (pk approverId : Nat)
    (decision : Decision) (notes : String) : List Approval :=
  if l.any fun a => decide (a.reservationId = pk) then
    l.map fun a =>
      if a.reservationId = pk then
        { reservationId := pk, approverId := approverId,
          decision := decision, notes := notes }
      else a
  else
    l ++ [{ reservationId := pk, approverId := approverId,
            decision := decision, notes := notes }]

/-- `reservation.status = ..; reservation.save()`: update the status of
the row with primary key `pk`. -/
def setReservationStatus (rs : List Reservation) (pk : Nat)
    (st : Status) : List Reservation :=
  rs.map fun r => if r.id = pk then { r with status := st } else r

/-- Status of the reservation row with primary key `pk`. -/
def statusOf (db : DB) (pk : Nat) : Option Status :=
  (db.reservations.find? fun r => decide (r.id = pk)).map fun r => r.status

/-- The approval row of reservation `pk` (OneToOne in the source). -/
def approvalOf (db : DB) (pk : Nat) : Option Approval :=
  db.approvals.find? fun a => decide (a.reservationId = pk)

/-- Outcome of `approve_or_reject` as seen by the caller. -/
inductive DecideOutcome where
  | success
  | schedulingConflict
  | notFound
deriving DecidableEq, Repr

/-- `approve_or_reject` from `api/views.py` lines 488-554 (POST branch
with a valid form; the textual decision is already normalized to
APPR/REJ as lines 493-496 do).  Looks the reservation up by pk
(`get_object_or_404`); when approving, first checks the space conflict
query against other APPROVED reservations and fails without writing
anything on a conflict; otherwise writes/replaces the Approval, sets
the status, and notifies the owner (plus the cleaning group on
approval).  The source performs NO check that the reservation is
PENDING.  Notification messages are modelled as fixed strings (the
source interpolates space/date details into them). -/
def approve_or_reject (db : DB) (pk : Nat) (decision : Decision)
    (notes : String) (approverId : Nat) : DecideOutcome × DB :=
  match db.reservations.find? fun r => decide (r.id = pk) with
  | none => (DecideOutcome.notFound, db)
  | some reservation =>
    if decision = Decision.APPR ∧ approvalConflict db reservation then
      (DecideOutcome.schedulingConflict, db)
    else
      let approvals2 := update_or_create_approval db.approvals pk approverId decision notes
      let newStatus := if decision = Decision.APPR then Status.APPROVED else Status.REJECTED
      let ownerMsg := if decision = Decision.APPR then
          "Tu reserva fue aprobada." else "Tu reserva fue rechazada."
      let notifs := db.notifications ++ [{ userId := reservation.userId, message := ownerMsg }]
      let notifs := if decision = Decision.APPR then
          notifs ++ (db.cleaningGroup.map fun uid =>
            { userId := uid, message := "RESERVA APROBADA · Preparar espacio" })
        else notifs
      let reservations2 := setReservationStatus db.reservations pk newStatus
      (DecideOutcome.success,
       { db with approvals := approvals2, reservations := reservations2,
                 notifications := notifs })

-- ## Reservation creation (`api/views.py` lines 316-419) -----------------

/-- One requested (resource id, parsed quantity) pair from the POST data
(`resources` list plus `quantity_<id>` fields). -/
structure ResourceRequest where
  resourceId : Nat
  quantity : Int
deriving DecidableEq, Repr

/-- A cleaned reservation-creation request (the form already validated
`start < stop` upstream in `form.clean`). -/
structure CreateRequest where
  userId : Nat
  spaceId : Nat
  start : Int
  stop : Int
  resourceReqs : List ResourceRequest
deriving Repr

/-- Outcome of `ReservationCreateView.form_valid`. -/
inductive CreateOutcome where
  | created (reservationId : Nat)
  | insufficient (resourceName : String) (requested available : Int)
  | error
deriving DecidableEq, Repr

/-- The resource-validation loop of `form_valid` (`api/views.py` lines
357-368): for each requested pair whose resource exists
(`Resource.DoesNotExist` is swallowed) and whose quantity is ≥ 1, check
availability; report the first pair whose requested quantity exceeds
it, as (resource name, requested, available). -/
def validateResources (db : DB) (s e : Int) :
    List ResourceRequest → Option (String × Int × Int)
  | [] => none
  | rr :: rest =>
    match db.resources.find? fun res => decide (res.id = rr.resourceId) with
    | none => validateResources db s e rest
    | some res =>
      if rr.quantity < 1 then validateResources db s e rest
      else
        let available := check_resource_availability db res s e none
        if available < rr.quantity then some (res.name, rr.quantity, available)
        else validateResources db s e rest

/-- The usage-row creation loop of `form_valid` (`api/views.py` lines
396-407): each `ReservationResource.objects.create` runs under a bare
`try/except: pass`, so a storage failure on one row is swallowed and the
loop continues.  `createFails i` says whether the i-th create call
raises; rows with quantity ≤ 0 or a missing resource are skipped. -/
def createUsageRows (db : DB) (reservationId : Nat)
    (createFails : Nat → Bool) :
    Nat → List ResourceRequest → List ReservationResource
  | _, [] => []
  | i, rr :: rest =>
    match db.resources.find? fun res => decide (res.id = rr.resourceId) with
    | none => createUsageRows db reservationId createFails (i + 1) rest
    | some res =>
      if 0 < rr.quantity ∧ ¬ createFails i then
        { reservationId := reservationId, resourceId := res.id,
          quantity := rr.quantity }
          :: createUsageRows db reservationId createFails (i + 1) rest
      else createUsageRows db reservationId createFails (i + 1) rest

/-- Recipients of the "new pending reservation" notification
(`Profile.objects.filter(user__is_staff=True)`, `api/views.py` line
416): owners of a Profile row whose user is staff. -/
def staffProfileRecipients (db : DB) : List Nat :=
  db.profiles.filter fun uid =>
    db.users.any fun u => decide (u.id = uid) && u.isStaff

/-- The message of `api/views.py` lines 413-414. -/
def newPendingMsg (resourceReqs : List ResourceRequest) : String :=
  if resourceReqs.isEmpty then "Nueva reserva pendiente de aprobación."
  else "Nueva reserva pendiente de aprobación. (Incluye solicitud de recursos)"

/-- `ReservationCreateView.form_valid` (`api/views.py` lines 328-419),
after `form.clean` accepted the slots.  Order as in the source: the
resource-stock validation loop (fails with the InsufficientResource
message, nothing saved); then the legacy purpose-text loop, whose
un-guarded `Resource.objects.get` raises on a missing resource id
(nothing saved, modelled as `.error`); then the Reservation is saved
(PENDING), the usage rows are created one by one (each create guarded
by `except: pass`, so `createFails` failures are swallowed), and every
staff profile owner is notified.  There is no enclosing transaction in
the source.  The purpose-text mutation itself touches no table a claim
reads and is omitted. -/
def form_valid (db : DB) (req : CreateRequest) (newId : Nat)
    (createFails : Nat → Bool) : CreateOutcome × DB :=
  match validateResources db req.start req.stop req.resourceReqs with
  | some (name, requested, available) =>
      (CreateOutcome.insufficient name requested available, db)
  | none =>
    if req.resourceReqs.any fun rr =>
        db.resources.all fun res => decide (res.id ≠ rr.resourceId) then
      (CreateOutcome.error, db)
    else
      let newRes : Reservation :=
        { id := newId, userId := req.userId, spaceId := req.spaceId,
          start := req.start, stop := req.stop,
          status := Status.PENDING, cancelReason := [] }
      let reservations2 := db.reservations ++ [newRes]
      let usages2 := db.usages ++
        createUsageRows db newId createFails 0 req.resourceReqs
      let notifs := db.notifications ++
        (staffProfileRecipients db).map fun uid =>
          { userId := uid, message := newPendingMsg req.resourceReqs }
      (CreateOutcome.created newId,
       { db with reservations := reservations2, usages := usages2,
                 notifications := notifs })

-- ## Cancellation (`api/views.py` lines 444-475) -------------------------

/-- Modelled from the spec: `Reservation.can_cancel` lives in
`api/models.py`, which is not among the provided sources.  Per the spec
it holds iff the status is PENDING or APPROVED and the current time is
before `start − minCancelWindow`. -/
def can_cancel (r : Reservation) (now minCancelWindow : Int) : Bool :=
  isActiveStatus r.status && decide (now < r.start - minCancelWindow)

/-- Python `str.strip()`: drop whitespace from both ends. -/
def pyStrip (l : List Char) : List Char :=
  ((l.dropWhile Char.isWhitespace).reverse.dropWhile Char.isWhitespace).reverse

/-- Modelled from the spec: `Reservation.cancel_by_user` lives in
`api/models.py`, which is not among the provided sources.  Per the spec
it sets the status to CANCELLED and stores the given reason. -/
def cancel_by_user (rs : List Reservation) (pk : Nat)
    (reason : List Char) : List Reservation :=
  rs.map fun r =>
    if r.id = pk then { r with status := Status.CANCELLED, cancelReason := reason }
    else r

/-- Outcome of `cancel_reservation`. -/
inductive CancelOutcome where
  | ok
  | notAllowed
  | notFound
deriving DecidableEq, Repr

/-- Stored cancellation reason of reservation `pk`. -/
def cancelReasonOf (db : DB) (pk : Nat) : Option (List Char) :=
  (db.reservations.find? fun r => decide (r.id = pk)).map fun r => r.cancelReason

/-- `cancel_reservation` from `api/views.py` lines 444-475 (POST
branch): fetch the reservation by pk AND owner
(`get_object_or_404(Reservation, pk=pk, user=request.user)`); refuse
unless `can_cancel`; otherwise strip and truncate the posted reason to
255 characters (`(request.POST.get("reason") or "").strip()[:255]`),
cancel, and notify the cleaning group.  The notification message is
modelled with the reservation id and reason (the source interpolates
space/date/username). -/
def cancel_reservation (db : DB) (pk userId : Nat) (reasonRaw : List Char)
    (now minCancelWindow : Int) : CancelOutcome × DB :=
  match db.reservations.find? fun r =>
      decide (r.id = pk) && decide (r.userId = userId) with
  | none => (CancelOutcome.notFound, db)
  | some reservation =>
    if ¬ can_cancel reservation now minCancelWindow then
      (CancelOutcome.notAllowed, db)
    else
      let reason := (pyStrip reasonRaw).take 255
      let reservations2 := cancel_by_user db.reservations pk reason
      let msg := "Reserva CANCELADA · reserva " ++ toString reservation.id
        ++ " · Motivo: " ++ String.mk reason
      let notifs := db.notifications ++
        db.cleaningGroup.map fun uid => { userId := uid, message := msg }
      (CancelOutcome.ok,
       { db with reservations := reservations2, notifications := notifs })

-- ## Availability endpoint (`api/views.py` lines 804-842) ----------------

/-- Result of the `resource_availability` endpoint. -/
inductive AvailResult where
  | ok (available total : Int)
  | notFound
deriving DecidableEq, Repr

/-- `resource_availability` from `api/views.py` lines 804-842, after
parameter parsing: `Resource.objects.get` failing gives the 404
"Resource not found" response; otherwise the endpoint returns
`{available, total}` computed by `check_resource_availability`.  The
source contains no validity check on the interval. -/
def resource_availability (db : DB) (resourceId : Nat)
    (start_dt end_dt : Int) : AvailResult :=
  match db.resources.find? fun res => decide (res.id = resourceId) with
  | none => AvailResult.notFound
  | some resource =>
      AvailResult.ok (check_resource_availability db resource start_dt end_dt none)
        resource.quantity

-- ## Helper lemmas -------------------------------------------------------

/-- `List.any` over a filtered list is `any` of the conjunction. -/
theorem any_filter_eq {α : Type} (p q : α → Bool) (l : List α) :
    (l.filter p).any q = l.any fun a => p a && q a := by
  induction l with
  | nil => rfl
  | cons x xs ih =>
      by_cases hx : p x = true
      · simp [List.filter_cons, hx, ih]
      · simp only [Bool.not_eq_true] at hx
        simp [List.filter_cons, hx, ih]

/-- Folding `+ quantity` from a starting accumulator just shifts the
result of folding from 0. -/
theorem foldl_add_shift (l : List ReservationResource) (init : Int) :
    l.foldl (fun acc u => acc + u.quantity) init
      = init + l.foldl (fun acc u => acc + u.quantity) 0 := by
  induction l generalizing init with
  | nil => simp
  | cons x xs ih =>
      simp only [List.foldl_cons]
      rw [ih (init + x.quantity), ih (0 + x.quantity)]
      ring

/-- The usage sum is nonnegative when every usage quantity is. -/
theorem foldl_add_nonneg (l : List ReservationResource)
    (h : ∀ u ∈ l, 0 ≤ u.quantity) :
    0 ≤ l.foldl (fun acc u => acc + u.quantity) 0 := by
  induction l with
  | nil => simp
  | cons x xs ih =>
      simp only [List.foldl_cons, zero_add]
      rw [foldl_add_shift]
      have hx : 0 ≤ x.quantity := h x (by simp)
      have hxs : 0 ≤ xs.foldl (fun acc u => acc + u.quantity) 0 :=
        ih fun u hu => h u (by simp [hu])
      omega

-- ## Claims --------------------------------------------------------------

/-- C7: the half-open overlap predicate is symmetric, reflexive on
non-degenerate intervals, and touching intervals (`endA = startB`)
never overlap. -/
theorem C7_overlap_algebra :
    (∀ sA eA sB eB : Int, overlaps sA eA sB eB = overlaps sB eB sA eA)
    ∧ (∀ s e : Int, s < e → overlaps s e s e = true)
    ∧ (∀ sA eA sB eB : Int, eA = sB → overlaps sA eA sB eB = false) := by
  refine ⟨?_, ?_, ?_⟩
  · intro sA eA sB eB
    simp only [overlaps, Bool.and_comm]
  · intro s e h
    simp [overlaps, h]
  · intro sA eA sB eB h
    subst h
    simp [overlaps]

/-- Witness for C7 at concrete intervals. -/
theorem C7_overlap_algebra_witness :
    overlaps 0 2 0 2 = true ∧ overlaps 0 2 2 5 = false :=
  ⟨C7_overlap_algebra.2.1 0 2 (by decide),
   C7_overlap_algebra.2.2 0 2 2 5 rfl⟩

/-- C10: assuming the data-model invariants (total stock ≥ 0, every
usage quantity ≥ 0), the value of `check_resource_availability` always
lies in `[0, resource.quantity]`, for every interval and every optional
exclusion id. -/
theorem C10_availability_bounds (db : DB) (resource : Resource)
    (s e : Int) (excl : Option Nat)
    (htotal : 0 ≤ resource.quantity)
    (hq : ∀ u ∈ db.usages, 0 ≤ u.quantity) :
    0 ≤ check_resource_availability db resource s e excl
    ∧ check_resource_availability db resource s e excl ≤ resource.quantity := by
  have key : ∀ l : List ReservationResource, (∀ u ∈ l, u ∈ db.usages) →
      0 ≤ max 0 (resource.quantity - l.foldl (fun acc u => acc + u.quantity) 0)
      ∧ max 0 (resource.quantity - l.foldl (fun acc u => acc + u.quantity) 0)
          ≤ resource.quantity := by
    intro l hl
    have hsum : 0 ≤ l.foldl (fun acc u => acc + u.quantity) 0 :=
      foldl_add_nonneg l fun u hu => hq u (hl u hu)
    rcases max_choice 0 (resource.quantity - l.foldl (fun acc u => acc + u.quantity) 0)
      with hm | hm <;> rw [hm] <;> constructor <;> omega
  exact key _ fun u hu => (List.mem_filter.1 hu).1

/-- Witness for C10 on a concrete database. -/
theorem C10_availability_bounds_witness :
    0 ≤ check_resource_availability
        { users := [], profiles := [],
          resources := [{ id := 1, name := "Proyector", quantity := 3, isActive := true }],
          reservations := [{ id := 1, userId := 4, spaceId := 2, start := 0, stop := 10,
                             status := Status.PENDING, cancelReason := [] }],
          usages := [{ reservationId := 1, resourceId := 1, quantity := 2 }],
          approvals := [], notifications := [], cleaningGroup := [] }
        { id := 1, name := "Proyector", quantity := 3, isActive := true } 0 10 none
    ∧ check_resource_availability
        { users := [], profiles := [],
          resources := [{ id := 1, name := "Proyector", quantity := 3, isActive := true }],
          reservations := [{ id := 1, userId := 4, spaceId := 2, start := 0, stop := 10,
                             status := Status.PENDING, cancelReason := [] }],
          usages := [{ reservationId := 1, resourceId := 1, quantity := 2 }],
          approvals := [], notifications := [], cleaningGroup := [] }
        { id := 1, name := "Proyector", quantity := 3, isActive := true } 0 10 none
      ≤ (3 : Int) :=
  C10_availability_bounds _ _ 0 10 none (by decide) (by decide)
/-- C1: for every valid half-open interval, `check_resource_availability`
returns `max(0, resource.total - S)` where `S` is the spec-side sum of
usage quantities over overlapping PENDING/APPROVED reservations
(optionally excluding one reservation id, which in the source is a real
primary key, hence nonzero), and the result is never negative. -/
theorem C1_availability_formula (db : DB) (resource : Resource)
    (s e : Int) (excl : Option Nat)
    (hse : s < e) (hexcl : excl ≠ some 0) :
    check_resource_availability db resource s e excl
      = max 0 (resource.quantity - specUsageSum db resource s e excl)
    ∧ 0 ≤ check_resource_availability db resource s e excl := by
  have hmain : check_resource_availability db resource s e excl
      = max 0 (resource.quantity - specUsageSum db resource s e excl) := by
    unfold check_resource_availability specUsageSum
    rcases excl with _ | i
    · simp only []
      congr 1
      congr 1
      congr 1
      apply List.filter_congr
      intro u _
      rw [any_filter_eq, Bool.eq_iff_iff]
      simp only [Bool.and_eq_true, List.any_eq_true, decide_eq_true_eq, Bool.and_true]
      tauto
    · have hi : i ≠ 0 := by
        intro h
        exact hexcl (by rw [h])
      simp only [hi, if_neg, ite_false]
      congr 1
      congr 1
      congr 1
      apply List.filter_congr
      intro u _
      rw [any_filter_eq, any_filter_eq, Bool.eq_iff_iff]
      simp only [Bool.and_eq_true, List.any_eq_true, decide_eq_true_eq]
      tauto
  exact ⟨hmain, by rw [hmain]; exact le_max_left 0 _⟩

/-- Witness for C1 on a concrete database: one pending overlapping
reservation using 2 of 3 projectors. -/
theorem C1_availability_formula_witness :
    check_resource_availability
        { users := [], profiles := [],
          resources := [{ id := 1, name := "Proyector", quantity := 3, isActive := true }],
          reservations := [{ id := 1, userId := 4, spaceId := 2, start := 0, stop := 10,
                             status := Status.PENDING, cancelReason := [] }],
          usages := [{ reservationId := 1, resourceId := 1, quantity := 2 }],
          approvals := [], notifications := [], cleaningGroup := [] }
        { id := 1, name := "Proyector", quantity := 3, isActive := true } 0 10 none
      = max 0 ((3 : Int) - specUsageSum
        { users := [], profiles := [],
          resources := [{ id := 1, name := "Proyector", quantity := 3, isActive := true }],
          reservations := [{ id := 1, userId := 4, spaceId := 2, start := 0, stop := 10,
                             status := Status.PENDING, cancelReason := [] }],
          usages := [{ reservationId := 1, resourceId := 1, quantity := 2 }],
          approvals := [], notifications := [], cleaningGroup := [] }
        { id := 1, name := "Proyector", quantity := 3, isActive := true } 0 10 none)
    ∧ 0 ≤ check_resource_availability
        { users := [], profiles := [],
          resources := [{ id := 1, name := "Proyector", quantity := 3, isActive := true }],
          reservations := [{ id := 1, userId := 4, spaceId := 2, start := 0, stop := 10,
                             status := Status.PENDING, cancelReason := [] }],
          usages := [{ reservationId := 1, resourceId := 1, quantity := 2 }],
          approvals := [], notifications := [], cleaningGroup := [] }
        { id := 1, name := "Proyector", quantity := 3, isActive := true } 0 10 none :=
  C1_availability_formula _ _ 0 10 none (by decide) (by decide)
/-- Characterization of the approval-time conflict query: exactly the
APPROVED reservations on the same space (excluding the candidate
itself) whose intervals overlap. -/
theorem approvalConflict_iff (db : DB) (r : Reservation) :
    approvalConflict db r = true ↔
      ∃ r2 ∈ db.reservations, r2.spaceId = r.spaceId
        ∧ r2.status = Status.APPROVED ∧ r2.id ≠ r.id
        ∧ overlaps r2.start r2.stop r.start r.stop = true := by
  simp only [approvalConflict, List.any_eq_true, Bool.and_eq_true, decide_eq_true_eq]
  tauto

/-- After `update_or_create_approval`, looking the reservation's
approval up finds exactly the freshly written record. -/
theorem approvalOf_update_or_create (l : List Approval) (pk a : Nat)
    (d : Decision) (n : String) :
    (update_or_create_approval l pk a d n).find?
        (fun x => decide (x.reservationId = pk))
      = some { reservationId := pk, approverId := a, decision := d, notes := n } := by
  unfold update_or_create_approval
  by_cases h : (l.any fun x => decide (x.reservationId = pk)) = true
  · rw [if_pos h]
    induction l with
    | nil => simp at h
    | cons x xs ih =>
        by_cases hx : x.reservationId = pk
        · simp [hx]
        · simp only [List.any_cons, decide_eq_true_eq, Bool.or_eq_true] at h
          rcases h with h | h
          · exact absurd h hx
          · simp [hx, ih h]
  · rw [if_neg h]
    simp only [Bool.not_eq_true, List.any_eq_false, decide_eq_true_eq] at h
    induction l with
    | nil => simp
    | cons x xs ih =>
        have hx : ¬ x.reservationId = pk := h x (by simp)
        simp only [List.cons_append]
        rw [List.find?_cons_of_neg _ (by simpa using hx)]
        exact ih fun y hy => h y (by simp [hy])

/-- A map-update of the reservation table that touches only the row
with primary key `pk` and preserves ids: afterwards `find?` by id
returns the updated image of some original row with that id. -/
theorem find?_map_update (rs : List Reservation) (pk : Nat)
    (f : Reservation → Reservation) (hid : ∀ r, (f r).id = r.id)
    (h : ∃ r ∈ rs, r.id = pk) :
    ∃ r ∈ rs, r.id = pk ∧
      ((rs.map fun x => if x.id = pk then f x else x).find?
          fun x => decide (x.id = pk)) = some (f r) := by
  induction rs with
  | nil => simp at h
  | cons x xs ih =>
      by_cases hx : x.id = pk
      · refine ⟨x, by simp, hx, ?_⟩
        simp only [List.map_cons, if_pos hx]
        rw [List.find?_cons_of_pos _ (by simp [hid, hx])]
      · have h' : ∃ r ∈ xs, r.id = pk := by
          rcases h with ⟨r, hr, hrid⟩
          rcases List.mem_cons.1 hr with rfl | hr'
          · exact absurd hrid hx
          · exact ⟨r, hr', hrid⟩
        rcases ih h' with ⟨r, hr, hrid, hfind⟩
        refine ⟨r, by simp [hr], hrid, ?_⟩
        simp only [List.map_cons, if_neg hx]
        rw [List.find?_cons_of_neg _ (by simp [hx]), hfind]
/-- C2: approving a PENDING reservation fails with the scheduling
conflict outcome, leaves the whole database unchanged (status still
PENDING, no Approval written) when another APPROVED reservation on the
same space overlaps it; otherwise it succeeds, the Approval record is
persisted (or replaces a prior one) and the status becomes APPROVED. -/
theorem C2_approve_conflict_or_commit (db : DB) (pk : Nat) (r : Reservation)
    (notes : String) (approverId : Nat)
    (hr : db.reservations.find? (fun x => decide (x.id = pk)) = some r)
    (hpend : r.status = Status.PENDING) :
    ((∃ r2 ∈ db.reservations, r2.spaceId = r.spaceId
        ∧ r2.status = Status.APPROVED ∧ r2.id ≠ r.id
        ∧ overlaps r2.start r2.stop r.start r.stop = true) →
      approve_or_reject db pk Decision.APPR notes approverId
          = (DecideOutcome.schedulingConflict, db)
      ∧ statusOf db pk = some Status.PENDING)
    ∧ ((¬ ∃ r2 ∈ db.reservations, r2.spaceId = r.spaceId
        ∧ r2.status = Status.APPROVED ∧ r2.id ≠ r.id
        ∧ overlaps r2.start r2.stop r.start r.stop = true) →
      (approve_or_reject db pk Decision.APPR notes approverId).1
          = DecideOutcome.success
      ∧ approvalOf (approve_or_reject db pk Decision.APPR notes approverId).2 pk
          = some { reservationId := pk, approverId := approverId,
                   decision := Decision.APPR, notes := notes }
      ∧ statusOf (approve_or_reject db pk Decision.APPR notes approverId).2 pk
          = some Status.APPROVED) := by
  have hex : ∃ x ∈ db.reservations, x.id = pk :=
    ⟨r, List.mem_of_find?_eq_some hr, by simpa using List.find?_some hr⟩
  constructor
  · intro hconf
    have hc : approvalConflict db r = true := (approvalConflict_iff db r).2 hconf
    refine ⟨?_, by simp [statusOf, hr, hpend]⟩
    simp [approve_or_reject, hr, hc]
  · intro hnoconf
    have hc : approvalConflict db r = false :=
      Bool.eq_false_iff.2 fun h => hnoconf ((approvalConflict_iff db r).1 h)
    have h2 : (approve_or_reject db pk Decision.APPR notes approverId).2.approvals
        = update_or_create_approval db.approvals pk approverId Decision.APPR notes := by
      simp [approve_or_reject, hr, hc]
    have h3 : (approve_or_reject db pk Decision.APPR notes approverId).2.reservations
        = setReservationStatus db.reservations pk Status.APPROVED := by
      simp [approve_or_reject, hr, hc]
    refine ⟨by simp [approve_or_reject, hr, hc], ?_, ?_⟩
    · simp only [approvalOf]
      rw [h2]
      exact approvalOf_update_or_create db.approvals pk approverId Decision.APPR notes
    · simp only [statusOf]
      rw [h3]
      rcases find?_map_update db.reservations pk
          (fun x => { x with status := Status.APPROVED }) (fun _ => rfl) hex with
        ⟨r', _, _, hfind⟩
      simp only [setReservationStatus]
      rw [hfind]
      rfl

/-- Witness for C2: a pending reservation with no conflicting APPROVED
reservation is approved and its approval recorded. -/
theorem C2_approve_conflict_or_commit_witness :
    (approve_or_reject
        { users := [], profiles := [], resources := [],
          reservations := [{ id := 1, userId := 4, spaceId := 2, start := 0, stop := 10,
                             status := Status.PENDING, cancelReason := [] }],
          usages := [], approvals := [], notifications := [], cleaningGroup := [] }
        1 Decision.APPR "ok" 9).1 = DecideOutcome.success
    ∧ approvalOf (approve_or_reject
        { users := [], profiles := [], resources := [],
          reservations := [{ id := 1, userId := 4, spaceId := 2, start := 0, stop := 10,
                             status := Status.PENDING, cancelReason := [] }],
          usages := [], approvals := [], notifications := [], cleaningGroup := [] }
        1 Decision.APPR "ok" 9).2 1
        = some { reservationId := 1, approverId := 9,
                 decision := Decision.APPR, notes := "ok" }
    ∧ statusOf (approve_or_reject
        { users := [], profiles := [], resources := [],
          reservations := [{ id := 1, userId := 4, spaceId := 2, start := 0, stop := 10,
                             status := Status.PENDING, cancelReason := [] }],
          usages := [], approvals := [], notifications := [], cleaningGroup := [] }
        1 Decision.APPR "ok" 9).2 1 = some Status.APPROVED :=
  (C2_approve_conflict_or_commit
    { users := [], profiles := [], resources := [],
      reservations := [{ id := 1, userId := 4, spaceId := 2, start := 0, stop := 10,
                         status := Status.PENDING, cancelReason := [] }],
      usages := [], approvals := [], notifications := [], cleaningGroup := [] }
    1
    { id := 1, userId := 4, spaceId := 2, start := 0, stop := 10,
      status := Status.PENDING, cancelReason := [] }
    "ok" 9 rfl rfl).2 (by decide)
/-- Counterexample to C3: the source performs no status check, so a
decision call on an already-APPROVED reservation (with a prior approval
on record) succeeds instead of failing, silently overwriting the prior
Approval record. -/
theorem C3_counterexample :
    (approve_or_reject
        { users := [], profiles := [], resources := [],
          reservations := [{ id := 1, userId := 4, spaceId := 2, start := 0, stop := 10,
                             status := Status.APPROVED, cancelReason := [] }],
          usages := [],
          approvals := [{ reservationId := 1, approverId := 7,
                          decision := Decision.APPR, notes := "old" }],
          notifications := [], cleaningGroup := [] }
        1 Decision.APPR "new" 8).1 = DecideOutcome.success
    ∧ approvalOf (approve_or_reject
        { users := [], profiles := [], resources := [],
          reservations := [{ id := 1, userId := 4, spaceId := 2, start := 0, stop := 10,
                             status := Status.APPROVED, cancelReason := [] }],
          usages := [],
          approvals := [{ reservationId := 1, approverId := 7,
                          decision := Decision.APPR, notes := "old" }],
          notifications := [], cleaningGroup := [] }
        1 Decision.APPR "new" 8).2 1
      = some { reservationId := 1, approverId := 8,
               decision := Decision.APPR, notes := "new" } := by
  constructor <;> rfl

/-- C3 amended: a decision call on a non-PENDING reservation does NOT
fail with an invalid-state error; it re-runs the decision, overwriting
any prior Approval record and re-setting the status, failing only with
the scheduling conflict (and only for an approve decision). -/
theorem C3_amended_no_state_check (db : DB) (pk : Nat) (r : Reservation)
    (d : Decision) (notes : String) (approverId : Nat)
    (hr : db.reservations.find? (fun x => decide (x.id = pk)) = some r)
    (hnp : r.status ≠ Status.PENDING) :
    ((approve_or_reject db pk d notes approverId).1 = DecideOutcome.schedulingConflict
        ∧ d = Decision.APPR ∧ (approve_or_reject db pk d notes approverId).2 = db)
    ∨ ((approve_or_reject db pk d notes approverId).1 = DecideOutcome.success
        ∧ approvalOf (approve_or_reject db pk d notes approverId).2 pk
            = some { reservationId := pk, approverId := approverId,
                     decision := d, notes := notes }
        ∧ statusOf (approve_or_reject db pk d notes approverId).2 pk
            = some (if d = Decision.APPR then Status.APPROVED else Status.REJECTED)) := by
  have hex : ∃ x ∈ db.reservations, x.id = pk :=
    ⟨r, List.mem_of_find?_eq_some hr, by simpa using List.find?_some hr⟩
  by_cases hcond : d = Decision.APPR ∧ approvalConflict db r = true
  · left
    refine ⟨?_, hcond.1, ?_⟩ <;> simp [approve_or_reject, hr, hcond.1, hcond.2]
  · right
    have hst : (if d = Decision.APPR then Status.APPROVED else Status.REJECTED)
        = if d = Decision.APPR then Status.APPROVED else Status.REJECTED := rfl
    have h2 : (approve_or_reject db pk d notes approverId).2.approvals
        = update_or_create_approval db.approvals pk approverId d notes := by
      rcases Decidable.em (d = Decision.APPR) with hd | hd
      · have hc : approvalConflict db r = false :=
          Bool.eq_false_iff.2 fun h => hcond ⟨hd, h⟩
        simp [approve_or_reject, hr, hd, hc]
      · simp [approve_or_reject, hr, hd]
    have h3 : (approve_or_reject db pk d notes approverId).2.reservations
        = setReservationStatus db.reservations pk
            (if d = Decision.APPR then Status.APPROVED else Status.REJECTED) := by
      rcases Decidable.em (d = Decision.APPR) with hd | hd
      · have hc : approvalConflict db r = false :=
          Bool.eq_false_iff.2 fun h => hcond ⟨hd, h⟩
        simp [approve_or_reject, hr, hd, hc]
      · simp [approve_or_reject, hr, hd]
    have h1 : (approve_or_reject db pk d notes approverId).1 = DecideOutcome.success := by
      rcases Decidable.em (d = Decision.APPR) with hd | hd
      · have hc : approvalConflict db r = false :=
          Bool.eq_false_iff.2 fun h => hcond ⟨hd, h⟩
        simp [approve_or_reject, hr, hd, hc]
      · simp [approve_or_reject, hr, hd]
    refine ⟨h1, ?_, ?_⟩
    · simp only [approvalOf]
      rw [h2]
      exact approvalOf_update_or_create db.approvals pk approverId d notes
    · simp only [statusOf]
      rw [h3]
      rcases find?_map_update db.reservations pk
          (fun x => { x with status :=
            if d = Decision.APPR then Status.APPROVED else Status.REJECTED })
          (fun _ => rfl) hex with ⟨r', _, _, hfind⟩
      simp only [setReservationStatus]
      rw [hfind]
      rfl

/-- Concrete database for the C3 witness: a single CANCELLED
reservation. -/
def dbC3w : DB :=
  { users := [], profiles := [], resources := [],
    reservations := [{ id := 1, userId := 4, spaceId := 2, start := 0, stop := 10,
                       status := Status.CANCELLED, cancelReason := [] }],
    usages := [], approvals := [], notifications := [], cleaningGroup := [] }

/-- Witness for the amended C3: rejecting a CANCELLED reservation still
succeeds and records the rejection. -/
theorem C3_amended_no_state_check_witness :
    ((approve_or_reject dbC3w 1 Decision.REJ "no" 8).1 = DecideOutcome.schedulingConflict
      ∧ Decision.REJ = Decision.APPR
      ∧ (approve_or_reject dbC3w 1 Decision.REJ "no" 8).2 = dbC3w)
    ∨ ((approve_or_reject dbC3w 1 Decision.REJ "no" 8).1 = DecideOutcome.success
      ∧ approvalOf (approve_or_reject dbC3w 1 Decision.REJ "no" 8).2 1
          = some { reservationId := 1, approverId := 8,
                   decision := Decision.REJ, notes := "no" }
      ∧ statusOf (approve_or_reject dbC3w 1 Decision.REJ "no" 8).2 1
          = some (if Decision.REJ = Decision.APPR then Status.APPROVED
                  else Status.REJECTED)) :=
  C3_amended_no_state_check dbC3w 1
    { id := 1, userId := 4, spaceId := 2, start := 0, stop := 10,
      status := Status.CANCELLED, cancelReason := [] }
    Decision.REJ "no" 8 rfl (by decide)
/-- Counterexample to C8: the endpoint performs no interval validation.
On the invalid interval `[10, 5)` (end ≤ start) it does not fail with
an invalid-argument error: it returns a quantity — here even counting
the usage of a reservation the degenerate window "overlaps". -/
theorem C8_counterexample :
    resource_availability
      { users := [], profiles := [],
        resources := [{ id := 1, name := "Proyector", quantity := 5, isActive := true }],
        reservations := [{ id := 1, userId := 4, spaceId := 2, start := 0, stop := 20,
                           status := Status.APPROVED, cancelReason := [] }],
        usages := [{ reservationId := 1, resourceId := 1, quantity := 2 }],
        approvals := [], notifications := [], cleaningGroup := [] }
      1 10 5 = AvailResult.ok 3 5 := by
  rfl

/-- C8 amended: the availability endpoint answers NotFound when the
resource does not exist; it performs no interval validation, so for ANY
interval — including an invalid one with end ≤ start — it returns the
(never negative) computed quantity together with the total. -/
theorem C8_amended_availability_endpoint (db : DB) (resourceId : Nat)
    (s e : Int) :
    ((∀ res ∈ db.resources, res.id ≠ resourceId) →
      resource_availability db resourceId s e = AvailResult.notFound)
    ∧ (∀ res, db.resources.find? (fun x => decide (x.id = resourceId)) = some res →
        resource_availability db resourceId s e
          = AvailResult.ok (check_resource_availability db res s e none) res.quantity
        ∧ 0 ≤ check_resource_availability db res s e none) := by
  constructor
  · intro hnone
    have h : db.resources.find? (fun x => decide (x.id = resourceId)) = none :=
      List.find?_eq_none.2 fun res hres => by simpa using hnone res hres
    simp [resource_availability, h]
  · intro res hres
    refine ⟨by simp [resource_availability, hres], le_max_left 0 _⟩

/-- Witness for the amended C8 on concrete databases, exercising both
the missing-resource branch and the invalid-interval quantity answer. -/
theorem C8_amended_availability_endpoint_witness :
    resource_availability
      { users := [], profiles := [], resources := [], reservations := [],
        usages := [], approvals := [], notifications := [], cleaningGroup := [] }
      1 0 5 = AvailResult.notFound
    ∧ resource_availability
      { users := [], profiles := [],
        resources := [{ id := 1, name := "Proyector", quantity := 5, isActive := true }],
        reservations := [], usages := [], approvals := [], notifications := [],
        cleaningGroup := [] }
      1 10 5 = AvailResult.ok (check_resource_availability
        { users := [], profiles := [],
          resources := [{ id := 1, name := "Proyector", quantity := 5, isActive := true }],
          reservations := [], usages := [], approvals := [], notifications := [],
          cleaningGroup := [] }
        { id := 1, name := "Proyector", quantity := 5, isActive := true } 10 5 none) 5 :=
  ⟨(C8_amended_availability_endpoint
      { users := [], profiles := [], resources := [], reservations := [],
        usages := [], approvals := [], notifications := [], cleaningGroup := [] }
      1 0 5).1 (by decide),
   ((C8_amended_availability_endpoint
      { users := [], profiles := [],
        resources := [{ id := 1, name := "Proyector", quantity := 5, isActive := true }],
        reservations := [], usages := [], approvals := [], notifications := [],
        cleaningGroup := [] }
      1 10 5).2
      { id := 1, name := "Proyector", quantity := 5, isActive := true } rfl).1⟩
/-- When stock validation passes and every requested resource exists,
`form_valid` saves the reservation, creates the usage rows and notifies
the staff profiles, returning the created outcome. -/
theorem form_valid_created (db : DB) (req : CreateRequest) (newId : Nat)
    (mask : Nat → Bool)
    (hv : validateResources db req.start req.stop req.resourceReqs = none)
    (he : ∀ rr ∈ req.resourceReqs, ∃ res ∈ db.resources, res.id = rr.resourceId) :
    form_valid db req newId mask =
      (CreateOutcome.created newId,
       { db with
           reservations := db.reservations ++
             [{ id := newId, userId := req.userId, spaceId := req.spaceId,
                start := req.start, stop := req.stop,
                status := Status.PENDING, cancelReason := [] }],
           usages := db.usages ++ createUsageRows db newId mask 0 req.resourceReqs,
           notifications := db.notifications ++
             (staffProfileRecipients db).map fun uid =>
               { userId := uid, message := newPendingMsg req.resourceReqs } }) := by
  have hlegacy : (req.resourceReqs.any fun rr =>
      db.resources.all fun res => decide (res.id ≠ rr.resourceId)) = false := by
    rw [List.any_eq_false]
    intro rr hrr
    rcases he rr hrr with ⟨res, hres, hid⟩
    simp only [Bool.not_eq_true, List.all_eq_false]
    exact ⟨res, hres, by simp [hid]⟩
  unfold form_valid
  rw [hv, hlegacy]
  rfl

/-- If some requested pair (with an existing resource) exceeds its
availability, the validation loop reports such a pair, with that
resource's name, the requested quantity and the computed availability. -/
theorem validateResources_fail (db : DB) (s e : Int) :
    ∀ l : List ResourceRequest,
      (∃ rr ∈ l, ∃ res,
          db.resources.find? (fun x => decide (x.id = rr.resourceId)) = some res
          ∧ check_resource_availability db res s e none < rr.quantity) →
      ∃ rr ∈ l, ∃ res,
        db.resources.find? (fun x => decide (x.id = rr.resourceId)) = some res
        ∧ check_resource_availability db res s e none < rr.quantity
        ∧ validateResources db s e l
            = some (res.name, rr.quantity, check_resource_availability db res s e none) := by
  intro l
  induction l with
  | nil => rintro ⟨_, h, _⟩; simp at h
  | cons rr rest ih =>
      rintro ⟨rr', hmem, res', hfind', hlt'⟩
      have havail_nonneg : ∀ res : Resource,
          0 ≤ check_resource_availability db res s e none := fun _ => le_max_left 0 _
      cases hres : db.resources.find? fun x => decide (x.id = rr.resourceId) with
      | none =>
          have hmem' : rr' ∈ rest := by
            rcases List.mem_cons.1 hmem with rfl | h
            · rw [hres] at hfind'
              exact absurd hfind' (by simp)
            · exact h
          rcases ih ⟨rr', hmem', res', hfind', hlt'⟩ with
            ⟨rr2, hmem2, res2, hfind2, hlt2, heq2⟩
          refine ⟨rr2, List.mem_cons_of_mem rr hmem2, res2, hfind2, hlt2, ?_⟩
          simpa [validateResources, hres] using heq2
      | some res =>
          by_cases hq : rr.quantity < 1
          · have hmem' : rr' ∈ rest := by
              rcases List.mem_cons.1 hmem with rfl | h
              · rw [hres] at hfind'
                cases hfind'
                have := havail_nonneg res'
                omega
              · exact h
            rcases ih ⟨rr', hmem', res', hfind', hlt'⟩ with
              ⟨rr2, hmem2, res2, hfind2, hlt2, heq2⟩
            refine ⟨rr2, List.mem_cons_of_mem rr hmem2, res2, hfind2, hlt2, ?_⟩
            simpa [validateResources, hres, hq] using heq2
          · by_cases hlt : check_resource_availability db res s e none < rr.quantity
            · refine ⟨rr, List.mem_cons_self rr rest, res, hres, hlt, ?_⟩
              simp [validateResources, hres, hq, hlt]
            · have hmem' : rr' ∈ rest := by
                rcases List.mem_cons.1 hmem with rfl | h
                · rw [hres] at hfind'
                  cases hfind'
                  exact absurd hlt' hlt
                · exact h
              rcases ih ⟨rr', hmem', res', hfind', hlt'⟩ with
                ⟨rr2, hmem2, res2, hfind2, hlt2, heq2⟩
              refine ⟨rr2, List.mem_cons_of_mem rr hmem2, res2, hfind2, hlt2, ?_⟩
              simpa [validateResources, hres, hq, hlt] using heq2

/-- In the run where no storage write fails, every requested pair with
positive quantity and an existing resource gets its usage row. -/
theorem mem_createUsageRows (db : DB) (newId : Nat) :
    ∀ (l : List ResourceRequest) (i : Nat) (rr : ResourceRequest),
      rr ∈ l → 0 < rr.quantity →
      (∃ res ∈ db.resources, res.id = rr.resourceId) →
      ({ reservationId := newId, resourceId := rr.resourceId,
         quantity := rr.quantity } : ReservationResource)
        ∈ createUsageRows db newId (fun _ => false) i l := by
  intro l
  induction l with
  | nil => intro i rr h; simp at h
  | cons x xs ih =>
      intro i rr hmem hq hex
      rcases List.mem_cons.1 hmem with rfl | hmem'
      · rcases hex with ⟨res, hres, hid⟩
        have hfind : ∃ res', (db.resources.find? fun y => decide (y.id = rr.resourceId))
            = some res' := by
          have : (db.resources.find? fun y => decide (y.id = rr.resourceId)).isSome := by
            rw [List.find?_isSome]
            exact ⟨res, hres, by simp [hid]⟩
          exact Option.isSome_iff_exists.1 this
        rcases hfind with ⟨res', hres'⟩
        have hid' : res'.id = rr.resourceId := by
          simpa using List.find?_some hres'
        simp only [createUsageRows, hres']
        rw [if_pos ⟨hq, by simp⟩]
        rw [hid']
        exact List.mem_cons_self _ _
      · cases hres : db.resources.find? fun y => decide (y.id = x.resourceId) with
        | none =>
            simpa [createUsageRows, hres] using ih (i + 1) rr hmem' hq hex
        | some res =>
            by_cases hcond : 0 < x.quantity ∧ ¬ (fun _ : Nat => false) i
            · simp only [createUsageRows, hres]
              rw [if_pos hcond]
              exact List.mem_cons_of_mem _ (ih (i + 1) rr hmem' hq hex)
            · simp only [createUsageRows, hres]
              rw [if_neg hcond]
              exact ih (i + 1) rr hmem' hq hex
/-- C5: when some requested (resource, quantity) pair exceeds the
computed availability for the requested interval, creation fails with
the insufficient-stock outcome carrying that resource's name, the
requested amount and the available amount, and the database is
unchanged (no Reservation, no usage row). -/
theorem C5_insufficient_blocks_creation (db : DB) (req : CreateRequest)
    (newId : Nat) (mask : Nat → Bool)
    (hfail : ∃ rr ∈ req.resourceReqs, ∃ res,
        db.resources.find? (fun x => decide (x.id = rr.resourceId)) = some res
        ∧ check_resource_availability db res req.start req.stop none < rr.quantity) :
    ∃ rr ∈ req.resourceReqs, ∃ res,
      db.resources.find? (fun x => decide (x.id = rr.resourceId)) = some res
      ∧ check_resource_availability db res req.start req.stop none < rr.quantity
      ∧ form_valid db req newId mask
          = (CreateOutcome.insufficient res.name rr.quantity
              (check_resource_availability db res req.start req.stop none), db) := by
  rcases validateResources_fail db req.start req.stop req.resourceReqs hfail with
    ⟨rr, hmem, res, hfind, hlt, heq⟩
  refine ⟨rr, hmem, res, hfind, hlt, ?_⟩
  unfold form_valid
  rw [heq]

/-- Concrete database for the C5 witness: 3 projectors, 2 already used
by a pending reservation over the window. -/
def dbC5w : DB :=
  { users := [], profiles := [],
    resources := [{ id := 1, name := "Proyector", quantity := 3, isActive := true }],
    reservations := [{ id := 1, userId := 4, spaceId := 2, start := 600, stop := 660,
                       status := Status.PENDING, cancelReason := [] }],
    usages := [{ reservationId := 1, resourceId := 1, quantity := 2 }],
    approvals := [], notifications := [], cleaningGroup := [] }

/-- Concrete request for the C5 witness: 2 more projectors on the same
window (only 1 available). -/
def reqC5w : CreateRequest :=
  { userId := 5, spaceId := 2, start := 600, stop := 660,
    resourceReqs := [{ resourceId := 1, quantity := 2 }] }

/-- Witness for C5: requesting 2 projectors with only 1 available fails
and leaves the database unchanged. -/
theorem C5_insufficient_blocks_creation_witness :
    ∃ rr ∈ reqC5w.resourceReqs, ∃ res,
      dbC5w.resources.find? (fun x => decide (x.id = rr.resourceId)) = some res
      ∧ check_resource_availability dbC5w res reqC5w.start reqC5w.stop none < rr.quantity
      ∧ form_valid dbC5w reqC5w 2 (fun _ => false)
          = (CreateOutcome.insufficient res.name rr.quantity
              (check_resource_availability dbC5w res reqC5w.start reqC5w.stop none), dbC5w) :=
  C5_insufficient_blocks_creation dbC5w reqC5w 2 (fun _ => false) (by decide)

/-- Counterexample to C6: the source saves the Reservation first and
then creates each usage row in its own `try/except: pass` block with no
enclosing transaction, so in the run where the usage-row write raises
(`createFails` everywhere true, swallowed by the bare `except`), the
Reservation is persisted while the requested usage row is missing —
an outcome the all-or-nothing claim says cannot exist. -/
theorem C6_counterexample :
    (form_valid
      { users := [], profiles := [],
        resources := [{ id := 1, name := "Proyector", quantity := 5, isActive := true }],
        reservations := [], usages := [], approvals := [], notifications := [],
        cleaningGroup := [] }
      { userId := 4, spaceId := 2, start := 0, stop := 10,
        resourceReqs := [{ resourceId := 1, quantity := 2 }] }
      1 (fun _ => true)).1 = CreateOutcome.created 1
    ∧ (form_valid
      { users := [], profiles := [],
        resources := [{ id := 1, name := "Proyector", quantity := 5, isActive := true }],
        reservations := [], usages := [], approvals := [], notifications := [],
        cleaningGroup := [] }
      { userId := 4, spaceId := 2, start := 0, stop := 10,
        resourceReqs := [{ resourceId := 1, quantity := 2 }] }
      1 (fun _ => true)).2.reservations
        = [{ id := 1, userId := 4, spaceId := 2, start := 0, stop := 10,
             status := Status.PENDING, cancelReason := [] }]
    ∧ (form_valid
      { users := [], profiles := [],
        resources := [{ id := 1, name := "Proyector", quantity := 5, isActive := true }],
        reservations := [], usages := [], approvals := [], notifications := [],
        cleaningGroup := [] }
      { userId := 4, spaceId := 2, start := 0, stop := 10,
        resourceReqs := [{ resourceId := 1, quantity := 2 }] }
      1 (fun _ => true)).2.usages = [] :=
  ⟨rfl, rfl, rfl⟩

/-- C6 amended: in the run where no storage write fails, a successful
creation persists the PENDING Reservation and a usage row for every
requested pair with positive quantity, and emits the "new pending
reservation" notification to every staff profile owner; but the writes
are sequential per row (each guarded by `except: pass`, no
transaction), not atomic. -/
theorem C6_amended_creation_persists (db : DB) (req : CreateRequest) (newId : Nat)
    (hv : validateResources db req.start req.stop req.resourceReqs = none)
    (he : ∀ rr ∈ req.resourceReqs, ∃ res ∈ db.resources, res.id = rr.resourceId) :
    (form_valid db req newId (fun _ => false)).1 = CreateOutcome.created newId
    ∧ ({ id := newId, userId := req.userId, spaceId := req.spaceId,
         start := req.start, stop := req.stop, status := Status.PENDING,
         cancelReason := [] } : Reservation)
        ∈ (form_valid db req newId (fun _ => false)).2.reservations
    ∧ (∀ rr ∈ req.resourceReqs, 0 < rr.quantity →
        ({ reservationId := newId, resourceId := rr.resourceId,
           quantity := rr.quantity } : ReservationResource)
          ∈ (form_valid db req newId (fun _ => false)).2.usages)
    ∧ (∀ uid ∈ staffProfileRecipients db,
        ({ userId := uid, message := newPendingMsg req.resourceReqs } : Notification)
          ∈ (form_valid db req newId (fun _ => false)).2.notifications) := by
  have h1 := form_valid_created db req newId (fun _ => false) hv he
  refine ⟨by rw [h1], ?_, ?_, ?_⟩
  · rw [h1]
    simp
  · intro rr hmem hq
    rw [h1]
    simp only []
    exact List.mem_append_right _
      (mem_createUsageRows db newId req.resourceReqs 0 rr hmem hq (he rr hmem))
  · intro uid huid
    rw [h1]
    simp only []
    exact List.mem_append_right _ (List.mem_map_of_mem _ huid)

/-- Concrete database for the C6 amended witness. -/
def dbC6w : DB :=
  { users := [{ id := 9, isStaff := true }], profiles := [9],
    resources := [{ id := 1, name := "Proyector", quantity := 5, isActive := true }],
    reservations := [], usages := [], approvals := [], notifications := [],
    cleaningGroup := [] }

/-- Concrete request for the C6 amended witness. -/
def reqC6w : CreateRequest :=
  { userId := 4, spaceId := 2, start := 0, stop := 10,
    resourceReqs := [{ resourceId := 1, quantity := 2 }] }

/-- Witness for the amended C6: reservation, usage row and staff
notification all persisted in the failure-free run. -/
theorem C6_amended_creation_persists_witness :
    (form_valid dbC6w reqC6w 1 (fun _ => false)).1 = CreateOutcome.created 1
    ∧ ({ id := 1, userId := reqC6w.userId, spaceId := reqC6w.spaceId,
         start := reqC6w.start, stop := reqC6w.stop, status := Status.PENDING,
         cancelReason := [] } : Reservation)
        ∈ (form_valid dbC6w reqC6w 1 (fun _ => false)).2.reservations
    ∧ (∀ rr ∈ reqC6w.resourceReqs, 0 < rr.quantity →
        ({ reservationId := 1, resourceId := rr.resourceId,
           quantity := rr.quantity } : ReservationResource)
          ∈ (form_valid dbC6w reqC6w 1 (fun _ => false)).2.usages)
    ∧ (∀ uid ∈ staffProfileRecipients dbC6w,
        ({ userId := uid, message := newPendingMsg reqC6w.resourceReqs } : Notification)
          ∈ (form_valid dbC6w reqC6w 1 (fun _ => false)).2.notifications) :=
  C6_amended_creation_persists dbC6w reqC6w 1 (by decide) (by decide)

/-- C4: creation-time validation never looks at the space — two
overlapping requests on the same space (passing resource validation)
both succeed and both persist as PENDING — while the approval-time
conflict query counts exactly the APPROVED reservations on the space,
so PENDING reservations never block an approval. -/
theorem C4_no_space_check_at_creation (db : DB) (q1 q2 : CreateRequest)
    (id1 id2 : Nat)
    (hspace : q1.spaceId = q2.spaceId)
    (hover : overlaps q1.start q1.stop q2.start q2.stop = true)
    (hv1 : validateResources db q1.start q1.stop q1.resourceReqs = none)
    (he1 : ∀ rr ∈ q1.resourceReqs, ∃ res ∈ db.resources, res.id = rr.resourceId)
    (hv2 : validateResources (form_valid db q1 id1 (fun _ => false)).2
        q2.start q2.stop q2.resourceReqs = none)
    (he2 : ∀ rr ∈ q2.resourceReqs,
        ∃ res ∈ (form_valid db q1 id1 (fun _ => false)).2.resources,
          res.id = rr.resourceId)
    (hid1 : ∀ r ∈ db.reservations, r.id ≠ id1)
    (hid2 : ∀ r ∈ (form_valid db q1 id1 (fun _ => false)).2.reservations, r.id ≠ id2) :
    (form_valid db q1 id1 (fun _ => false)).1 = CreateOutcome.created id1
    ∧ (form_valid (form_valid db q1 id1 (fun _ => false)).2 q2 id2
        (fun _ => false)).1 = CreateOutcome.created id2
    ∧ statusOf (form_valid (form_valid db q1 id1 (fun _ => false)).2 q2 id2
        (fun _ => false)).2 id1 = some Status.PENDING
    ∧ statusOf (form_valid (form_valid db q1 id1 (fun _ => false)).2 q2 id2
        (fun _ => false)).2 id2 = some Status.PENDING
    ∧ (∀ (db2 : DB) (r : Reservation), approvalConflict db2 r = true ↔
        ∃ r2 ∈ db2.reservations, r2.spaceId = r.spaceId
          ∧ r2.status = Status.APPROVED ∧ r2.id ≠ r.id
          ∧ overlaps r2.start r2.stop r.start r.stop = true) := by
  have h1 := form_valid_created db q1 id1 (fun _ => false) hv1 he1
  have h2 := form_valid_created (form_valid db q1 id1 (fun _ => false)).2 q2 id2
    (fun _ => false) hv2 he2
  have hn1 : db.reservations.find? (fun x => decide (x.id = id1)) = none :=
    List.find?_eq_none.2 fun x hx => by simp [hid1 x hx]
  have hn2 : (form_valid db q1 id1 (fun _ => false)).2.reservations.find?
      (fun x => decide (x.id = id2)) = none :=
    List.find?_eq_none.2 fun x hx => by simp [hid2 x hx]
  refine ⟨by rw [h1], by rw [h2], ?_, ?_, fun db2 r => approvalConflict_iff db2 r⟩
  · simp only [statusOf]
    rw [h2]
    dsimp only
    rw [h1]
    dsimp only
    simp [List.find?_append, hn1]
  · simp only [statusOf]
    rw [h2]
    dsimp only
    simp [List.find?_append, hn2]

/-- Concrete database for the C4 witness. -/
def dbC4w : DB :=
  { users := [], profiles := [], resources := [], reservations := [],
    usages := [], approvals := [], notifications := [], cleaningGroup := [] }

/-- First overlapping request for the C4 witness ([09:00, 10:00) on
space 2, minutes from midnight). -/
def q1C4w : CreateRequest :=
  { userId := 4, spaceId := 2, start := 540, stop := 600, resourceReqs := [] }

/-- Second overlapping request for the C4 witness ([09:30, 10:30) on
the same space). -/
def q2C4w : CreateRequest :=
  { userId := 5, spaceId := 2, start := 570, stop := 630, resourceReqs := [] }

/-- Witness for C4: two overlapping requests on space 2 both created
PENDING. -/
theorem C4_no_space_check_at_creation_witness :
    (form_valid dbC4w q1C4w 1 (fun _ => false)).1 = CreateOutcome.created 1
    ∧ (form_valid (form_valid dbC4w q1C4w 1 (fun _ => false)).2 q2C4w 2
        (fun _ => false)).1 = CreateOutcome.created 2
    ∧ statusOf (form_valid (form_valid dbC4w q1C4w 1 (fun _ => false)).2 q2C4w 2
        (fun _ => false)).2 1 = some Status.PENDING
    ∧ statusOf (form_valid (form_valid dbC4w q1C4w 1 (fun _ => false)).2 q2C4w 2
        (fun _ => false)).2 2 = some Status.PENDING
    ∧ (∀ (db2 : DB) (r : Reservation), approvalConflict db2 r = true ↔
        ∃ r2 ∈ db2.reservations, r2.spaceId = r.spaceId
          ∧ r2.status = Status.APPROVED ∧ r2.id ≠ r.id
          ∧ overlaps r2.start r2.stop r.start r.stop = true) :=
  C4_no_space_check_at_creation dbC4w q1C4w q2C4w 1 2 rfl (by decide) rfl
    (by decide) (by decide) (by decide) (by decide) (by decide)
/-- C9: a successful user cancellation sets the status to CANCELLED,
stores the supplied reason stripped and truncated to at most 255
characters, notifies every member of the operations (cleaning) group,
and sends nothing to the cancelling owner (who is not part of that
group). -/
theorem C9_cancel_success (db : DB) (pk userId : Nat) (reasonRaw : List Char)
    (now minCancelWindow : Int) (r : Reservation)
    (hr : db.reservations.find?
        (fun x => decide (x.id = pk) && decide (x.userId = userId)) = some r)
    (hcan : can_cancel r now minCancelWindow = true)
    (howner : userId ∉ db.cleaningGroup) :
    (cancel_reservation db pk userId reasonRaw now minCancelWindow).1
        = CancelOutcome.ok
    ∧ statusOf (cancel_reservation db pk userId reasonRaw now minCancelWindow).2 pk
        = some Status.CANCELLED
    ∧ cancelReasonOf (cancel_reservation db pk userId reasonRaw now minCancelWindow).2 pk
        = some ((pyStrip reasonRaw).take 255)
    ∧ ((pyStrip reasonRaw).take 255).length ≤ 255
    ∧ (∃ msg, ∀ uid ∈ db.cleaningGroup,
        ({ userId := uid, message := msg } : Notification)
          ∈ (cancel_reservation db pk userId reasonRaw now minCancelWindow).2.notifications)
    ∧ (∀ n ∈ (cancel_reservation db pk userId reasonRaw now minCancelWindow).2.notifications,
        n.userId = userId → n ∈ db.notifications) := by
  have hex : ∃ x ∈ db.reservations, x.id = pk := by
    refine ⟨r, List.mem_of_find?_eq_some hr, ?_⟩
    have := List.find?_some hr
    simp only [Bool.and_eq_true, decide_eq_true_eq] at this
    exact this.1
  have h3 : (cancel_reservation db pk userId reasonRaw now minCancelWindow).2.reservations
      = cancel_by_user db.reservations pk ((pyStrip reasonRaw).take 255) := by
    simp [cancel_reservation, hr, hcan]
  have h4 : (cancel_reservation db pk userId reasonRaw now minCancelWindow).2.notifications
      = db.notifications ++ db.cleaningGroup.map fun uid =>
          { userId := uid,
            message := "Reserva CANCELADA · reserva " ++ toString r.id
              ++ " · Motivo: " ++ String.mk ((pyStrip reasonRaw).take 255) } := by
    simp [cancel_reservation, hr, hcan]
  rcases find?_map_update db.reservations pk
      (fun x => { x with status := Status.CANCELLED,
                         cancelReason := (pyStrip reasonRaw).take 255 })
      (fun _ => rfl) hex with ⟨r', _, _, hfind⟩
  refine ⟨by simp [cancel_reservation, hr, hcan], ?_, ?_, ?_, ?_, ?_⟩
  · simp only [statusOf]
    rw [h3]
    simp only [cancel_by_user]
    rw [hfind]
    rfl
  · simp only [cancelReasonOf]
    rw [h3]
    simp only [cancel_by_user]
    rw [hfind]
    rfl
  · exact le_trans (le_of_eq (List.length_take _ _)) (Nat.min_le_left _ _)
  · refine ⟨"Reserva CANCELADA · reserva " ++ toString r.id
      ++ " · Motivo: " ++ String.mk ((pyStrip reasonRaw).take 255), ?_⟩
    intro uid huid
    rw [h4]
    exact List.mem_append_right _ (List.mem_map_of_mem _ huid)
  · intro n hn hnu
    rw [h4] at hn
    rcases List.mem_append.1 hn with h | h
    · exact h
    · rcases List.mem_map.1 h with ⟨uid, huid, rfl⟩
      simp only at hnu
      exact absurd (hnu ▸ huid) howner

/-- Concrete database for the C9 witness: an approved reservation of
user 4 on space 2, cleaning group member 7. -/
def dbC9w : DB :=
  { users := [], profiles := [], resources := [],
    reservations := [{ id := 1, userId := 4, spaceId := 2, start := 100, stop := 160,
                       status := Status.APPROVED, cancelReason := [] }],
    usages := [], approvals := [], notifications := [], cleaningGroup := [7] }

/-- Witness for C9: user 4 cancels reservation 1 well before the
window; the cleaning team is notified, the owner is not. -/
theorem C9_cancel_success_witness :
    (cancel_reservation dbC9w 1 4 ['y', 'a'] 0 10).1 = CancelOutcome.ok
    ∧ statusOf (cancel_reservation dbC9w 1 4 ['y', 'a'] 0 10).2 1
        = some Status.CANCELLED
    ∧ cancelReasonOf (cancel_reservation dbC9w 1 4 ['y', 'a'] 0 10).2 1
        = some ((pyStrip ['y', 'a']).take 255)
    ∧ ((pyStrip ['y', 'a']).take 255).length ≤ 255
    ∧ (∃ msg, ∀ uid ∈ dbC9w.cleaningGroup,
        ({ userId := uid, message := msg } : Notification)
          ∈ (cancel_reservation dbC9w 1 4 ['y', 'a'] 0 10).2.notifications)
    ∧ (∀ n ∈ (cancel_reservation dbC9w 1 4 ['y', 'a'] 0 10).2.notifications,
        n.userId = 4 → n ∈ dbC9w.notifications) :=
  C9_cancel_success dbC9w 1 4 ['y', 'a'] 0 10
    { id := 1, userId := 4, spaceId := 2, start := 100, stop := 160,
      status := Status.APPROVED, cancelReason := [] }
    rfl (by decide) (by decide)
